import Mathlib

/-!
Shallow embedding of the RAG pipeline in `src/lib/rag-service.ts` of the
chat-rag repository, together with proofs about the claims of its
specification.  Chunk texts are modelled as `List Char` (JS strings are
character sequences), scores and confidences as `ℚ` (the source arithmetic
is exact decimal arithmetic on small literals), and the external
collaborators (embedding provider, Qdrant vector store, OpenAI generation
model) as explicit outcome parameters, since they are reached only through
awaited network calls.
-/

namespace ChatRag

/-- Registry entry, `interface DocumentData` of rag-service.ts (id, name,
type, timestamp). -/
structure DocumentData where
  id : String
  name : String
  type : String
  timestamp : Nat
deriving DecidableEq

/-- One persisted record of the vector index: chunk text plus the metadata
attached in the `docs.map` calls of the add functions (we keep the fields the
claims need: owning document id and chunk index). -/
structure IndexedRecord where
  documentId : String
  pageContent : List Char
  chunkIndex : Nat
deriving DecidableEq

/-- The two stores the service touches: the in-process registry array
`this.documents` and the Qdrant collection contents. -/
structure RAGState where
  documents : List DocumentData
  index : List IndexedRecord
deriving DecidableEq

/-- Model of `this.documents.findIndex(doc => doc.id === documentId)`
(rag-service.ts line 389): index of the first entry with the given id, `none`
when absent (JS returns -1). -/
def findIndex (docs : List DocumentData) (documentId : String) : Option Nat :=
  match docs with
  | [] => none
  | d :: rest =>
    if d.id = documentId then some 0
    else (findIndex rest documentId).map (· + 1)

/-- Model of `RAGService.removeDocument` (rag-service.ts lines 388-397) on the
registry array: `findIndex` then `splice(index, 1)`, returning true when found. -/
def removeDocument (docs : List DocumentData) (documentId : String) :
    List DocumentData × Bool :=
  match findIndex docs documentId with
  | some i => (docs.eraseIdx i, true)
  | none => (docs, false)

/-- `RAGService.removeDocument` acting on both stores: the source mutates only
`this.documents`; it never issues a delete against the Qdrant collection (the
comment at lines 392-393 acknowledges this), so the index component is
returned unchanged. -/
def removeDocumentState (s : RAGState) (documentId : String) : RAGState × Bool :=
  let r := removeDocument s.documents documentId
  ({ documents := r.1, index := s.index }, r.2)

/-- Records built by the `chunks.map((chunk, index) => ...)` calls of the add
functions: each chunk is paired with the shared document id and its sequential
index, starting at `start`. -/
def chunkRecordsFrom (documentId : String) (start : Nat) :
    List (List Char) → List IndexedRecord
  | [] => []
  | c :: rest =>
    { documentId := documentId, pageContent := c, chunkIndex := start } ::
      chunkRecordsFrom documentId (start + 1) rest

/-- Outcome of the awaited `QdrantVectorStore.fromDocuments` call: either every
record is written, or the call throws after `written` records have already been
upserted (embedding and upsert proceed in batches, so a throw can leave a
prefix of the records in the collection). -/
inductive UpsertOutcome where
  | ok : UpsertOutcome
  | failAfter (written : Nat) : UpsertOutcome
deriving DecidableEq

/-- Shared shape of the four add functions (rag-service.ts lines 94-271): index
the records in Qdrant, then on success push the registry entry and return the
document id; on a throw the catch block rethrows `errMsg` and the registry push
is never reached, but records already written stay in the collection (there is
no compensating delete in the source). -/
def ingestDocument (s : RAGState) (entry : DocumentData)
    (records : List IndexedRecord) (errMsg : String) (up : UpsertOutcome) :
    RAGState × Except String String :=
  match up with
  | .ok =>
    ({ documents := s.documents ++ [entry], index := s.index ++ records },
      .ok entry.id)
  | .failAfter k =>
    ({ documents := s.documents, index := s.index ++ records.take k },
      .error errMsg)

/-- `RAGService.addTextDocument` (lines 94-130): chunks come from the text
splitter, the registry name is `Text Document N`. The fresh uuid and timestamp
are parameters. -/
def addTextDocument (s : RAGState) (documentId : String) (timestamp : Nat)
    (chunks : List (List Char)) (up : UpsertOutcome) :
    RAGState × Except String String :=
  ingestDocument s
    { id := documentId,
      name := "Text Document " ++ toString (s.documents.length + 1),
      type := "text", timestamp := timestamp }
    (chunkRecordsFrom documentId 0 chunks)
    "Failed to add text document" up

/-- `RAGService.addPDFDocument` (lines 132-180): the loader output pages are
parameters, the registry entry carries the filename. -/
def addPDFDocument (s : RAGState) (documentId : String) (timestamp : Nat)
    (filename : String) (pages : List (List Char)) (up : UpsertOutcome) :
    RAGState × Except String String :=
  ingestDocument s
    { id := documentId, name := filename, type := "pdf", timestamp := timestamp }
    (chunkRecordsFrom documentId 0 pages)
    "Failed to process PDF document" up

/-- `RAGService.addCSVDocument` (lines 182-230). -/
def addCSVDocument (s : RAGState) (documentId : String) (timestamp : Nat)
    (filename : String) (rows : List (List Char)) (up : UpsertOutcome) :
    RAGState × Except String String :=
  ingestDocument s
    { id := documentId, name := filename, type := "csv", timestamp := timestamp }
    (chunkRecordsFrom documentId 0 rows)
    "Failed to process CSV document" up

/-- `RAGService.addWebsiteDocument` (lines 232-271). -/
def addWebsiteDocument (s : RAGState) (documentId : String) (timestamp : Nat)
    (url : String) (docs : List (List Char)) (up : UpsertOutcome) :
    RAGState × Except String String :=
  ingestDocument s
    { id := documentId, name := url, type := "url", timestamp := timestamp }
    (chunkRecordsFrom documentId 0 docs)
    "Failed to process website content" up

/-- Model of JS `String.prototype.trim()` on character sequences: whitespace
is removed from both ends. -/
def jsTrim (s : List Char) : List Char :=
  (((s.dropWhile Char.isWhitespace).reverse).dropWhile Char.isWhitespace).reverse

/-- Metadata carried by a chunk returned from the retriever, as read at
rag-service.ts lines 318-328: `source`, `type`, `loc?.pageNumber`, `page` and
`chunkIndex`, each possibly absent. -/
structure ChunkMetadata where
  source : Option String
  type : Option String
  locPageNumber : Option Nat
  page : Option Nat
  chunkIndex : Option Nat
deriving DecidableEq

/-- A chunk returned by `retriever.invoke(query)`: page content plus metadata. -/
structure RetrievedChunk where
  pageContent : List Char
  metadata : ChunkMetadata
deriving DecidableEq

/-- `interface SourceInfo` of rag-service.ts. -/
structure SourceInfo where
  documentName : String
  documentType : String
  pageNumber : Option Nat
  chunkIndex : Nat
  relevanceScore : ℚ
  snippet : List Char
deriving DecidableEq

/-- `interface QueryResponse` of rag-service.ts. -/
structure QueryResponse where
  answer : String
  sources : List SourceInfo
  confidence : ℚ
deriving DecidableEq

/-- JS `a || b` on string-valued fields: `undefined` and the empty string are
falsy. -/
def jsOrString (v : Option String) (fallback : String) : String :=
  match v with
  | none => fallback
  | some s => if s = "" then fallback else s

/-- JS `a || b` on number-valued fields: `undefined` and `0` are falsy. -/
def jsOrNat (v : Option Nat) (fallback : Nat) : Nat :=
  match v with
  | none => fallback
  | some n => if n = 0 then fallback else n

/-- JS truthiness filter on an optional number: `0` collapses to `undefined`. -/
def truthyNat (v : Option Nat) : Option Nat :=
  match v with
  | none => none
  | some n => if n = 0 then none else some n

/-- `metadata.loc?.pageNumber || metadata.page || undefined`
(rag-service.ts line 323). -/
def jsPageNumber (locPage page : Option Nat) : Option Nat :=
  match truthyNat locPage with
  | some n => some n
  | none => truthyNat page

/-- Snippet construction of rag-service.ts line 326:
`chunk.pageContent.substring(0, 150) + (chunk.pageContent.length > 150 ? '...' : '')`. -/
def snippetOf (content : List Char) : List Char :=
  content.take 150 ++ (if 150 < content.length then ['.', '.', '.'] else [])

/-- One retrieval candidate, the body of the
`relevantChunks.map((chunk, index) => ...)` call (rag-service.ts lines
318-328); `index` is the rank position in the retrieval order. -/
def mkSourceInfo (index : Nat) (chunk : RetrievedChunk) : SourceInfo :=
  { documentName := jsOrString chunk.metadata.source "Unknown Document",
    documentType := jsOrString chunk.metadata.type "unknown",
    pageNumber := jsPageNumber chunk.metadata.locPageNumber chunk.metadata.page,
    chunkIndex := jsOrNat chunk.metadata.chunkIndex index,
    relevanceScore := 9/10 - (index : ℚ) * (1/10),
    snippet := snippetOf chunk.pageContent }

/-- The `.map((chunk, index) => ...)` traversal producing the sources list,
with the running index starting at `start`. -/
def mkSourcesFrom (start : Nat) : List RetrievedChunk → List SourceInfo
  | [] => []
  | c :: rest => mkSourceInfo start c :: mkSourcesFrom (start + 1) rest

/-- Outcome of the awaited retrieval phase (connecting to the Qdrant
collection, embedding the query and running the similarity search): a throw
from the embedding provider or the vector store, or the ranked result list of
the index. -/
inductive RetrievalOutcome where
  | throws : RetrievalOutcome
  | returns (ranked : List RetrievedChunk) : RetrievalOutcome
deriving DecidableEq

/-- Outcome of the awaited `openai.chat.completions.create` call: a throw, or
a completion whose `choices[0]?.message?.content` is `content` (`none` models
a missing content field). -/
inductive GenerationOutcome where
  | throws : GenerationOutcome
  | returns (content : Option String) : GenerationOutcome
deriving DecidableEq

/-- `k: 5` passed to `vectorStore.asRetriever` (rag-service.ts line 303): the
retriever returns the top five ranked results. -/
def retrieverK : Nat := 5

/-- Response for a blank query (rag-service.ts lines 276-282). -/
def blankQueryResponse : QueryResponse :=
  { answer := "Please provide a valid question to search for.",
    sources := [], confidence := 0 }

/-- Response when no documents are registered (lines 284-290). -/
def noDocumentsResponse : QueryResponse :=
  { answer := "No documents have been added yet. Please upload some documents first to get started.",
    sources := [], confidence := 0 }

/-- Response when retrieval finds nothing (lines 309-315). -/
def noResultsResponse : QueryResponse :=
  { answer := "I could not find any relevant information in the uploaded documents. Try rephrasing your question or adding more specific documents.",
    sources := [], confidence := 0 }

/-- Response produced by the catch block (lines 374-381). -/
def queryErrorResponse : QueryResponse :=
  { answer := "Sorry, I encountered an error while processing your query. Please make sure Qdrant is running and your OpenAI API key is configured properly.",
    sources := [], confidence := 0 }

/-- Model of `RAGService.queryDocuments` (rag-service.ts lines 273-382).  The
registry contents, the ranked output of the vector index and the generation
call outcome are parameters; the second component of the result records
whether the generation model was invoked.  The function is total: every throw
from a collaborator is absorbed by the catch block into `queryErrorResponse`. -/
def queryDocuments (documents : List DocumentData) (query : List Char)
    (retrieval : RetrievalOutcome) (generation : GenerationOutcome) :
    QueryResponse × Bool :=
  if (jsTrim query).length = 0 then
    (blankQueryResponse, false)
  else if documents.length = 0 then
    (noDocumentsResponse, false)
  else
    match retrieval with
    | .throws => (queryErrorResponse, false)
    | .returns ranked =>
      let relevantChunks := ranked.take retrieverK
      if relevantChunks.length = 0 then
        (noResultsResponse, false)
      else
        match generation with
        | .throws => (queryErrorResponse, true)
        | .returns content =>
          ({ answer := content.getD "I could not generate a response.",
             sources := mkSourcesFrom 0 relevantChunks,
             confidence := min (19/20 : ℚ)
               (7/10 + (relevantChunks.length : ℚ) * (1/20)) }, true)

/-- Sample registry entry used by concrete evaluations. -/
def sampleDoc : DocumentData :=
  { id := "a", name := "n", type := "text", timestamp := 0 }

/-- Chunk metadata with every optional field absent. -/
def emptyMeta : ChunkMetadata :=
  { source := none, type := none, locPageNumber := none, page := none,
    chunkIndex := none }

/-- Sample retrieved chunk. -/
def chunkA : RetrievedChunk := { pageContent := ['a'], metadata := emptyMeta }

/-- Second sample retrieved chunk. -/
def chunkB : RetrievedChunk := { pageContent := ['b'], metadata := emptyMeta }

/-- Sample chunk whose text exceeds the 150-character snippet bound. -/
def longChunk : RetrievedChunk :=
  { pageContent := List.replicate 151 'a', metadata := emptyMeta }

/-! ## Helper lemmas -/

theorem findIndex_eq_none (docs : List DocumentData) (documentId : String)
    (h : ∀ d ∈ docs, d.id ≠ documentId) : findIndex docs documentId = none := by
  induction docs with
  | nil => rfl
  | cons d rest ih =>
    have hd : d.id ≠ documentId := h d (List.mem_cons_self d rest)
    have hrest := ih fun e he => h e (List.mem_cons_of_mem d he)
    simp [findIndex, hd, hrest]

theorem findIndex_first (pre post : List DocumentData) (d : DocumentData)
    (documentId : String) (hd : d.id = documentId)
    (hpre : ∀ e ∈ pre, e.id ≠ documentId) :
    findIndex (pre ++ d :: post) documentId = some pre.length := by
  induction pre with
  | nil => simp [findIndex, hd]
  | cons e rest ih =>
    have he : e.id ≠ documentId := hpre e (List.mem_cons_self e rest)
    have hrest := ih fun x hx => hpre x (List.mem_cons_of_mem e hx)
    simp [findIndex, he, hrest]

theorem eraseIdx_append_cons (pre post : List DocumentData) (d : DocumentData) :
    (pre ++ d :: post).eraseIdx pre.length = pre ++ post := by
  induction pre with
  | nil => rfl
  | cons e rest ih => simp [List.eraseIdx_cons_succ, ih]

/-! ## Claims about document removal -/

/-- C8: removing a document id that is not present in the registry returns
false without throwing (the model is a total function) and leaves the registry
unchanged, with the same entries in the same order. -/
theorem removeDocument_not_found (docs : List DocumentData) (documentId : String)
    (h : ∀ d ∈ docs, d.id ≠ documentId) :
    removeDocument docs documentId = (docs, false) := by
  unfold removeDocument
  rw [findIndex_eq_none docs documentId h]

/-- Witness for C8: removing the absent id `b` from a one-entry registry. -/
theorem removeDocument_not_found_witness :
    removeDocument [{ id := "a", name := "n", type := "text", timestamp := 0 }] "b"
      = ([{ id := "a", name := "n", type := "text", timestamp := 0 }], false) :=
  removeDocument_not_found _ _ (by decide)

/-- C10: when the registry decomposes as `pre ++ d :: post` with `d` the first
entry whose id matches, `removeDocument` removes exactly that entry — the
result is `pre ++ post`, so every other entry is unchanged and keeps its
relative order — and returns true.  Every registry containing the id
decomposes this way. -/
theorem removeDocument_first_match (pre post : List DocumentData)
    (d : DocumentData) (documentId : String) (hd : d.id = documentId)
    (hpre : ∀ e ∈ pre, e.id ≠ documentId) :
    removeDocument (pre ++ d :: post) documentId = (pre ++ post, true) := by
  unfold removeDocument
  rw [findIndex_first pre post d documentId hd hpre]
  show ((pre ++ d :: post).eraseIdx pre.length, true) = (pre ++ post, true)
  rw [eraseIdx_append_cons]

/-- Witness for C10: removing `b` from the three-entry registry `[a, b, c]`
drops exactly the middle entry. -/
theorem removeDocument_first_match_witness :
    removeDocument
      [{ id := "a", name := "na", type := "text", timestamp := 0 },
       { id := "b", name := "nb", type := "pdf", timestamp := 1 },
       { id := "c", name := "nc", type := "csv", timestamp := 2 }] "b"
      = ([{ id := "a", name := "na", type := "text", timestamp := 0 },
          { id := "c", name := "nc", type := "csv", timestamp := 2 }], true) :=
  removeDocument_first_match
    [{ id := "a", name := "na", type := "text", timestamp := 0 }]
    [{ id := "c", name := "nc", type := "csv", timestamp := 2 }]
    { id := "b", name := "nb", type := "pdf", timestamp := 1 } "b" rfl (by decide)

/-- C1: evaluation of `removeDocument` on a state holding one registered
document together with its vector-index record.  The call reports success and
removes the registry entry, yet the index still holds the record for
`doc-1`: the source never invokes any delete on the vector index (the comment
at rag-service.ts lines 392-393 acknowledges this), so index deletion neither
precedes nor gates the registry removal, contrary to the claim. -/
theorem removeDocument_leaves_index_intact :
    removeDocumentState
      { documents := [{ id := "doc-1", name := "Text Document 1",
                        type := "text", timestamp := 0 }],
        index := [{ documentId := "doc-1", pageContent := ['h', 'i'],
                    chunkIndex := 0 }] }
      "doc-1"
      = ({ documents := [],
           index := [{ documentId := "doc-1", pageContent := ['h', 'i'],
                       chunkIndex := 0 }] }, true) := by
  decide

/-! ## Claims about ingestion -/

/-- C3 counterexample: a text-document ingestion on an empty state whose
indexing call throws after one chunk record was already upserted.  The add
fails (returns the error), the registry is untouched, and yet a record with
the new document id remains in the vector index — the document does appear in
the Vector Index after the failed add, refuting the claim as stated. -/
theorem addTextDocument_partial_index_residue :
    (addTextDocument { documents := [], index := [] } "doc-1" 0 [['h', 'i']]
        (.failAfter 1)).2 = .error "Failed to add text document"
    ∧ (addTextDocument { documents := [], index := [] } "doc-1" 0 [['h', 'i']]
        (.failAfter 1)).1.documents = []
    ∧ (addTextDocument { documents := [], index := [] } "doc-1" 0 [['h', 'i']]
        (.failAfter 1)).1.index
        = [{ documentId := "doc-1", pageContent := ['h', 'i'], chunkIndex := 0 }] :=
  ⟨rfl, rfl, rfl⟩

/-- C3 amended: when embedding or indexing fails partway through any of the
four add operations, the call surfaces the error and the document never
appears in the Document Registry (the registry is unchanged); however, the
chunk records already written before the failure (a prefix of the document's
records) remain in the Vector Index, because the source has no compensating
delete. -/
theorem addDocument_failure_registry_unchanged (s : RAGState)
    (documentId : String) (timestamp : Nat) (filename url : String)
    (chunks : List (List Char)) (k : Nat) :
    ((addTextDocument s documentId timestamp chunks (.failAfter k)).1.documents
        = s.documents
      ∧ (addTextDocument s documentId timestamp chunks (.failAfter k)).2
        = .error "Failed to add text document"
      ∧ (addTextDocument s documentId timestamp chunks (.failAfter k)).1.index
        = s.index ++ (chunkRecordsFrom documentId 0 chunks).take k)
    ∧ ((addPDFDocument s documentId timestamp filename chunks (.failAfter k)).1.documents
        = s.documents
      ∧ (addPDFDocument s documentId timestamp filename chunks (.failAfter k)).2
        = .error "Failed to process PDF document"
      ∧ (addPDFDocument s documentId timestamp filename chunks (.failAfter k)).1.index
        = s.index ++ (chunkRecordsFrom documentId 0 chunks).take k)
    ∧ ((addCSVDocument s documentId timestamp filename chunks (.failAfter k)).1.documents
        = s.documents
      ∧ (addCSVDocument s documentId timestamp filename chunks (.failAfter k)).2
        = .error "Failed to process CSV document"
      ∧ (addCSVDocument s documentId timestamp filename chunks (.failAfter k)).1.index
        = s.index ++ (chunkRecordsFrom documentId 0 chunks).take k)
    ∧ ((addWebsiteDocument s documentId timestamp url chunks (.failAfter k)).1.documents
        = s.documents
      ∧ (addWebsiteDocument s documentId timestamp url chunks (.failAfter k)).2
        = .error "Failed to process website content"
      ∧ (addWebsiteDocument s documentId timestamp url chunks (.failAfter k)).1.index
        = s.index ++ (chunkRecordsFrom documentId 0 chunks).take k) :=
  ⟨⟨rfl, rfl, rfl⟩, ⟨rfl, rfl, rfl⟩, ⟨rfl, rfl, rfl⟩, ⟨rfl, rfl, rfl⟩⟩

/-! ## Claims about querying -/

theorem length_mkSourcesFrom (start : Nat) (l : List RetrievedChunk) :
    (mkSourcesFrom start l).length = l.length := by
  induction l generalizing start with
  | nil => rfl
  | cons c rest ih => simp [mkSourcesFrom, ih]

theorem mkSourcesFrom_eq_nil_iff (start : Nat) (l : List RetrievedChunk) :
    mkSourcesFrom start l = [] ↔ l = [] := by
  cases l <;> simp [mkSourcesFrom]

/-- Every sources list produced by `queryDocuments` is the candidate list built
from some chunk list of length at most `retrieverK`. -/
theorem queryDocuments_sources_shape (documents : List DocumentData)
    (query : List Char) (retrieval : RetrievalOutcome)
    (generation : GenerationOutcome) :
    ∃ L : List RetrievedChunk, L.length ≤ retrieverK
      ∧ (queryDocuments documents query retrieval generation).1.sources
          = mkSourcesFrom 0 L := by
  unfold queryDocuments
  by_cases hq : (jsTrim query).length = 0
  · exact ⟨[], by simp [retrieverK], by simp [hq, blankQueryResponse, mkSourcesFrom]⟩
  by_cases hd : documents.length = 0
  · exact ⟨[], by simp [retrieverK], by simp [hq, hd, noDocumentsResponse, mkSourcesFrom]⟩
  cases retrieval with
  | throws => exact ⟨[], by simp [retrieverK], by simp [hq, hd, queryErrorResponse, mkSourcesFrom]⟩
  | returns ranked =>
    by_cases hn : (ranked.take retrieverK).length = 0
    · exact ⟨[], by simp [retrieverK], by simp [hq, hd, hn, noResultsResponse, mkSourcesFrom]⟩
    have hK : retrieverK ≠ 0 := by decide
    have hrk : ranked ≠ [] := by
      intro hnil
      exact hn (by simp [hnil])
    cases generation with
    | throws =>
      exact ⟨[], by simp [retrieverK],
        by simp [hq, hd, hK, hrk, queryErrorResponse, mkSourcesFrom]⟩
    | returns content =>
      exact ⟨ranked.take retrieverK, List.length_take_le retrieverK ranked,
        by simp [hq, hd, hK, hrk]⟩

/-- C2: if the registry is empty or the query is blank after trimming,
`queryDocuments` answers with confidence 0 and an empty sources list, and the
generation model is never invoked; the model is a total function, so no error
is raised either. -/
theorem queryDocuments_trivial_inputs (documents : List DocumentData)
    (query : List Char) (retrieval : RetrievalOutcome)
    (generation : GenerationOutcome)
    (h : documents = [] ∨ (jsTrim query).length = 0) :
    (queryDocuments documents query retrieval generation).1.confidence = 0
    ∧ (queryDocuments documents query retrieval generation).1.sources = []
    ∧ (queryDocuments documents query retrieval generation).2 = false := by
  rcases h with h | h
  · subst h
    unfold queryDocuments
    by_cases hq : (jsTrim query).length = 0
    · simp [hq, blankQueryResponse]
    · simp [hq, noDocumentsResponse]
  · unfold queryDocuments
    simp [h, blankQueryResponse]

/-- Witness for C2: an empty registry with the nonblank query `hi`. -/
theorem queryDocuments_trivial_inputs_witness :
    (queryDocuments [] ['h', 'i'] (.returns []) .throws).1.confidence = 0
    ∧ (queryDocuments [] ['h', 'i'] (.returns []) .throws).1.sources = []
    ∧ (queryDocuments [] ['h', 'i'] (.returns []) .throws).2 = false :=
  queryDocuments_trivial_inputs [] ['h', 'i'] (.returns []) .throws (Or.inl rfl)

/-- C4: on a successful query that retrieves at least one candidate, the
confidence is exactly `min(0.95, 0.7 + 0.05 * n)` where `n` is the number of
retrieved candidates; the formula does not depend on the generation output
`content`, so the confidence is not obtained from the generation model. -/
theorem queryDocuments_confidence_formula (documents : List DocumentData)
    (query : List Char) (ranked : List RetrievedChunk) (content : Option String)
    (hq : (jsTrim query).length ≠ 0) (hd : documents.length ≠ 0)
    (hn : (ranked.take retrieverK).length ≠ 0) :
    (queryDocuments documents query (.returns ranked) (.returns content)).1.confidence
      = min (19/20 : ℚ) (7/10 + ((ranked.take retrieverK).length : ℚ) * (1/20)) := by
  have hK : retrieverK ≠ 0 := by decide
  have hrk : ranked ≠ [] := by
    intro hnil
    exact hn (by simp [hnil])
  unfold queryDocuments
  simp [hq, hd, hK, hrk]

/-- Witness for C4: one registered document and a single retrieved chunk. -/
theorem queryDocuments_confidence_formula_witness :
    (queryDocuments [{ id := "a", name := "n", type := "text", timestamp := 0 }]
        ['h', 'i']
        (.returns [{ pageContent := ['h', 'i'],
                     metadata := { source := none, type := none,
                                   locPageNumber := none, page := none,
                                   chunkIndex := none } }])
        (.returns (some "ans"))).1.confidence
      = min (19/20 : ℚ)
          (7/10 + (([({ pageContent := ['h', 'i'],
                        metadata := { source := none, type := none,
                                      locPageNumber := none, page := none,
                                      chunkIndex := none } } : RetrievedChunk)].take
              retrieverK).length : ℚ) * (1/20)) :=
  queryDocuments_confidence_formula _ _ _ _ (by decide) (by decide) (by decide)

/-- C5: when the retrieval phase throws (embedding provider or vector index
failure), or the generation call throws after a nonempty retrieval, the catch
block degrades the result to the fixed apologetic answer with confidence 0 and
an empty sources list, instead of propagating the exception (the model is a
total function). -/
theorem queryDocuments_failure_degrades (documents : List DocumentData)
    (query : List Char) (retrieval : RetrievalOutcome)
    (generation : GenerationOutcome)
    (hq : (jsTrim query).length ≠ 0) (hd : documents.length ≠ 0)
    (h : retrieval = .throws
      ∨ ∃ ranked, retrieval = .returns ranked
          ∧ (ranked.take retrieverK).length ≠ 0 ∧ generation = .throws) :
    (queryDocuments documents query retrieval generation).1.answer
        = "Sorry, I encountered an error while processing your query. Please make sure Qdrant is running and your OpenAI API key is configured properly."
    ∧ (queryDocuments documents query retrieval generation).1.sources = []
    ∧ (queryDocuments documents query retrieval generation).1.confidence = 0 := by
  rcases h with h | ⟨ranked, hr, hn, hg⟩
  · subst h
    unfold queryDocuments
    simp [hq, hd, queryErrorResponse]
  · subst hr; subst hg
    have hK : retrieverK ≠ 0 := by decide
    have hrk : ranked ≠ [] := by
      intro hnil
      exact hn (by simp [hnil])
    unfold queryDocuments
    simp [hq, hd, hK, hrk, queryErrorResponse]

/-- Witness for C5: one registered document, nonblank query, retrieval throws. -/
theorem queryDocuments_failure_degrades_witness :
    (queryDocuments [{ id := "a", name := "n", type := "text", timestamp := 0 }]
        ['h', 'i'] .throws (.returns none)).1.answer
        = "Sorry, I encountered an error while processing your query. Please make sure Qdrant is running and your OpenAI API key is configured properly."
    ∧ (queryDocuments [{ id := "a", name := "n", type := "text", timestamp := 0 }]
        ['h', 'i'] .throws (.returns none)).1.sources = []
    ∧ (queryDocuments [{ id := "a", name := "n", type := "text", timestamp := 0 }]
        ['h', 'i'] .throws (.returns none)).1.confidence = 0 :=
  queryDocuments_failure_degrades _ _ _ _ (by decide) (by decide) (Or.inl rfl)

theorem relevanceScore_mkSourcesFrom (start : Nat) (l : List RetrievedChunk)
    (i : Nat) (h : i < (mkSourcesFrom start l).length) :
    ((mkSourcesFrom start l).get ⟨i, h⟩).relevanceScore
      = 9/10 - ((start + i : Nat) : ℚ) * (1/10) := by
  induction l generalizing start i with
  | nil => simp [mkSourcesFrom] at h
  | cons c rest ih =>
    cases i with
    | zero => simp [mkSourcesFrom, mkSourceInfo]
    | succ j =>
      have h' : j < (mkSourcesFrom (start + 1) rest).length := by
        have h2 := h
        simp only [mkSourcesFrom, List.length_cons] at h2
        omega
      have harr : start + 1 + j = start + (j + 1) := by omega
      calc ((mkSourcesFrom start (c :: rest)).get ⟨j + 1, h⟩).relevanceScore
          = ((mkSourcesFrom (start + 1) rest).get ⟨j, h'⟩).relevanceScore := rfl
        _ = 9/10 - ((start + 1 + j : Nat) : ℚ) * (1/10) := ih (start + 1) j h'
        _ = 9/10 - ((start + (j + 1) : Nat) : ℚ) * (1/10) := by rw [harr]

/-- C6: in every response of `queryDocuments`, each candidate relevance score
lies in [0,1], and the score at rank position i+1 is strictly smaller than the
score at rank position i. -/
theorem queryDocuments_relevance_scores (documents : List DocumentData)
    (query : List Char) (retrieval : RetrievalOutcome)
    (generation : GenerationOutcome) (i : Nat) :
    (∀ h : i < (queryDocuments documents query retrieval generation).1.sources.length,
        0 ≤ (((queryDocuments documents query retrieval generation).1.sources).get
              ⟨i, h⟩).relevanceScore
        ∧ (((queryDocuments documents query retrieval generation).1.sources).get
              ⟨i, h⟩).relevanceScore ≤ 1)
    ∧ ∀ h : i + 1 < (queryDocuments documents query retrieval generation).1.sources.length,
        (((queryDocuments documents query retrieval generation).1.sources).get
            ⟨i + 1, h⟩).relevanceScore
          < (((queryDocuments documents query retrieval generation).1.sources).get
              ⟨i, Nat.lt_of_succ_lt h⟩).relevanceScore := by
  obtain ⟨L, hL, hS⟩ :=
    queryDocuments_sources_shape documents query retrieval generation
  rw [hS]
  have hL5 : L.length ≤ 5 := hL
  constructor
  · intro h
    have hi : i < L.length := by rwa [length_mkSourcesFrom] at h
    rw [relevanceScore_mkSourcesFrom 0 L i h]
    have hc4 : ((0 + i : Nat) : ℚ) ≤ 4 := by
      have h4 : (0 + i : Nat) ≤ 4 := by omega
      exact_mod_cast h4
    have hc0 : (0 : ℚ) ≤ ((0 + i : Nat) : ℚ) := Nat.cast_nonneg _
    constructor
    · linarith
    · linarith
  · intro h
    rw [relevanceScore_mkSourcesFrom 0 L (i + 1) h,
      relevanceScore_mkSourcesFrom 0 L i (Nat.lt_of_succ_lt h)]
    have hlt : ((0 + i : Nat) : ℚ) < ((0 + (i + 1) : Nat) : ℚ) := by
      have h1 : (0 + i : Nat) < (0 + (i + 1) : Nat) := by omega
      exact_mod_cast h1
    linarith

/-- Witness for C6: a query retrieving two chunks; the rank-1 score is below
the rank-0 score and the rank-0 score is nonnegative. -/
theorem queryDocuments_relevance_scores_witness :
    (((queryDocuments [sampleDoc] ['h', 'i'] (.returns [chunkA, chunkB])
        (.returns (some "ans"))).1.sources.get ⟨1, by decide⟩).relevanceScore
      < ((queryDocuments [sampleDoc] ['h', 'i'] (.returns [chunkA, chunkB])
        (.returns (some "ans"))).1.sources.get ⟨0, by decide⟩).relevanceScore)
    ∧ 0 ≤ ((queryDocuments [sampleDoc] ['h', 'i'] (.returns [chunkA, chunkB])
        (.returns (some "ans"))).1.sources.get ⟨0, by decide⟩).relevanceScore :=
  ⟨(queryDocuments_relevance_scores _ _ _ _ 0).2 (by decide),
   ((queryDocuments_relevance_scores _ _ _ _ 0).1 (by decide)).1⟩

/-- C7: the snippet of a retrieval candidate is the chunk text unchanged when
that text has at most 150 characters, and otherwise its first 150 characters
followed by the continuation marker. -/
theorem mkSourceInfo_snippet (i : Nat) (c : RetrievedChunk) :
    (c.pageContent.length ≤ 150 → (mkSourceInfo i c).snippet = c.pageContent)
    ∧ (150 < c.pageContent.length →
        (mkSourceInfo i c).snippet = c.pageContent.take 150 ++ ['.', '.', '.']) := by
  constructor
  · intro h
    simp [mkSourceInfo, snippetOf, Nat.not_lt.mpr h, List.take_of_length_le h]
  · intro h
    simp [mkSourceInfo, snippetOf, h]

/-- Witness for C7: a two-character chunk keeps its text; a 151-character
chunk is cut at 150 characters and gains the marker. -/
theorem mkSourceInfo_snippet_witness :
    (mkSourceInfo 0 chunkA).snippet = ['a']
    ∧ (mkSourceInfo 1 longChunk).snippet
        = (List.replicate 151 'a').take 150 ++ ['.', '.', '.'] :=
  ⟨(mkSourceInfo_snippet 0 chunkA).1 (by decide),
   (mkSourceInfo_snippet 1 longChunk).2 (by simp [longChunk])⟩

/-- C9: every response of `queryDocuments` has positive confidence exactly
when its sources list is nonempty, and its confidence is either exactly 0 or
lies in the interval [0.75, 0.95]. -/
theorem queryDocuments_confidence_invariant (documents : List DocumentData)
    (query : List Char) (retrieval : RetrievalOutcome)
    (generation : GenerationOutcome) :
    (0 < (queryDocuments documents query retrieval generation).1.confidence
      ↔ (queryDocuments documents query retrieval generation).1.sources ≠ [])
    ∧ ((queryDocuments documents query retrieval generation).1.confidence = 0
      ∨ (3/4 ≤ (queryDocuments documents query retrieval generation).1.confidence
        ∧ (queryDocuments documents query retrieval generation).1.confidence ≤ 19/20)) := by
  unfold queryDocuments
  by_cases hq : (jsTrim query).length = 0
  · simp [hq, blankQueryResponse]
  by_cases hd : documents.length = 0
  · simp [hq, hd, noDocumentsResponse]
  cases retrieval with
  | throws => simp [hq, hd, queryErrorResponse]
  | returns ranked =>
    by_cases hn : (ranked.take retrieverK).length = 0
    · have hrk : ranked = [] := by
        have h2 : min retrieverK ranked.length = 0 := by
          simpa [List.length_take] using hn
        have h3 : retrieverK = 5 := rfl
        have h4 : ranked.length = 0 := by omega
        exact List.length_eq_zero.mp h4
      subst hrk
      simp [hq, hd, noResultsResponse]
    · have hK : retrieverK ≠ 0 := by decide
      have hrk : ranked ≠ [] := by
        intro hnil
        exact hn (by simp [hnil])
      cases generation with
      | throws => simp [hq, hd, hK, hrk, queryErrorResponse]
      | returns content =>
        have hnn : (1 : ℚ) ≤ ((ranked.take retrieverK).length : ℚ) := by
          exact_mod_cast Nat.one_le_iff_ne_zero.mpr hn
        have hlb : (3/4 : ℚ)
            ≤ min (19/20 : ℚ)
                (7/10 + ((ranked.take retrieverK).length : ℚ) * (1/20)) :=
          le_min (by norm_num) (by linarith)
        have hub : min (19/20 : ℚ)
              (7/10 + ((ranked.take retrieverK).length : ℚ) * (1/20))
            ≤ 19/20 := min_le_left _ _
        have hne : mkSourcesFrom 0 (ranked.take retrieverK) ≠ [] := by
          rw [Ne, mkSourcesFrom_eq_nil_iff]
          intro hnil
          rw [hnil] at hn
          exact hn rfl
        simp only [if_neg hq, if_neg hd, if_neg hn]
        exact ⟨⟨fun _ => hne, fun _ => lt_of_lt_of_le (by norm_num) hlb⟩,
          Or.inr ⟨hlb, hub⟩⟩

end ChatRag
